import Mathlib

/-!
Verification of the SKU predictor core: shallow embedding of the VIN
canonicalizer/validator, the token-level abbreviation expanders, the series
normalizer, the year-range aggregator, the prediction cascade and its
confidence model, translated from
`portable_app/src/unified_consolidado_processor.py`,
`portable_app/src/utils/unified_text.py`,
`portable_app/src/utils/year_range_database.py` and
`portable_app/src/utils/vin_inference.py`.

Numeric confidence values (Python floats over decimal literals) are embedded
as exact rationals; strings are modelled over their character lists with
ASCII case mapping, matching the ASCII data these functions process.
-/

/- ===== Character and string helpers (ASCII model of Python str ops) ===== -/

def toUpperChar (c : Char) : Char :=
  if 'a' ≤ c ∧ c ≤ 'z' then Char.ofNat (c.toNat - 32) else c

def toLowerChar (c : Char) : Char :=
  if 'A' ≤ c ∧ c ≤ 'Z' then Char.ofNat (c.toNat + 32) else c

def lowerStr (s : String) : String := String.mk (s.data.map toLowerChar)

def isPySpace (c : Char) : Bool :=
  c == ' ' || c == '\t' || c == '\n' || c == '\r' || c == '\x0b' || c == '\x0c'

/-- Python `str.strip(...)`: drop characters satisfying `p` from both ends. -/
def pyStripChars (p : Char → Bool) (l : List Char) : List Char :=
  ((l.dropWhile p).reverse.dropWhile p).reverse

def stripStr (s : String) : String := String.mk (pyStripChars isPySpace s.data)

/-- First-match association lookup (Python dict lookup over loaded pairs). -/
def lookupAssoc {α : Type} (m : List (String × α)) (k : String) : Option α :=
  (m.find? (fun p => p.1 == k)).map (·.2)

/-- Tests whether `l₁` occurs as a contiguous prefix of `l₂`. -/
def prefixB : List Char → List Char → Bool
  | [], _ => true
  | _ :: _, [] => false
  | a :: as, b :: bs => a == b && prefixB as bs

/-- Tests whether `l₁` occurs as a contiguous sublist of `l₂` (the core of SQL `LIKE '%x%'`). -/
def infixB (pat : List Char) : List Char → Bool
  | [] => prefixB pat []
  | c :: cs => prefixB pat (c :: cs) || infixB pat cs

def startsWithB (s pre : String) : Bool := prefixB pre.data s.data

def containsStrB (hay needle : String) : Bool := infixB needle.data hay.data

/- ===== VIN canonicalizer / validator =====
Source: unified_consolidado_processor.py, canonicalize_vin_chars,
validate_vin_format, clean_vin_for_training. -/

def substIOQ (c : Char) : Char :=
  if c = 'I' then '1' else if c = 'O' then '0' else if c = 'Q' then '0' else c

/-- Embeds `canonicalize_vin_chars`: `str(vin).strip().upper()` then I→1, O→0, Q→0. -/
def canonicalize_vin_chars (s : String) : String :=
  String.mk (((pyStripChars isPySpace s.data).map toUpperChar).map substIOQ)

def vinAllowedChar (c : Char) : Bool :=
  ('A' ≤ c && c ≤ 'Z' && c != 'I' && c != 'O' && c != 'Q') || ('0' ≤ c && c ≤ '9')

/-- Embeds `validate_vin_format`: exactly 17 characters, charset `[A-HJ-NPR-Z0-9]`. -/
def validate_vin_format (s : String) : Bool :=
  s.data.length == 17 && s.data.all vinAllowedChar

def runTooLong : List Char → Char → Nat → Bool
  | [], _, cnt => cnt ≥ 5
  | c :: cs, prev, cnt =>
    if cnt ≥ 5 then true
    else if c == prev then runTooLong cs prev (cnt + 1)
    else runTooLong cs c 1

/-- Python `re.search(r'(.)\1{4,}', s)`: some character repeats ≥ 5 times
consecutively (i.e. more than 4 times). -/
def hasLongRun (s : String) : Bool :=
  match s.data with
  | [] => false
  | c :: cs => runTooLong cs c 1

/-- Embeds `clean_vin_for_training`: canonicalize, then keep only format-valid,
non-noisy VINs. -/
def clean_vin_for_training (vin : String) : Option String :=
  if vin = "" then none
  else
    let v := canonicalize_vin_chars vin
    if ¬ validate_vin_format v then none
    else if hasLongRun v then none
    else some v

/-- Modelled from the claim's words, for refinement comparison only: the
claim's "canonical VIN" is "the input uppercased with I→1, O→0, Q→0",
with no whitespace stripping. -/
def claimCanonicalVin (s : String) : String :=
  String.mk ((s.data.map toUpperChar).map substIOQ)

/-- C6 (amended): `clean_vin_for_training` returns `some v` exactly when `v`
is the canonical form of the *whitespace-stripped* input (stripped, then
uppercased, then I→1/O→0/Q→0) and `v` is 17 characters long, drawn from the
charset `[A-HJ-NPR-Z0-9]`, and has no character repeated more than 4 times
consecutively; in every other case (including empty input) it returns
`none`. -/
theorem clean_vin_for_training_characterization (s : String) (v : String) :
    clean_vin_for_training s = some v ↔
      (v = canonicalize_vin_chars s ∧ v.data.length = 17 ∧
        v.data.all vinAllowedChar = true ∧ hasLongRun v = false) := by
  unfold clean_vin_for_training
  by_cases hs : s = ""
  · subst hs
    simp only [if_pos rfl]
    constructor
    · intro h; cases h
    · rintro ⟨hv, hlen, _, _⟩
      have : canonicalize_vin_chars "" = "" := rfl
      rw [this] at hv
      subst hv
      simp at hlen
  · simp only [if_neg hs]
    unfold validate_vin_format
    by_cases hval : ((canonicalize_vin_chars s).data.length == 17 &&
        (canonicalize_vin_chars s).data.all vinAllowedChar) = true
    · simp only [hval, not_true, if_neg, if_false]
      by_cases hrun : hasLongRun (canonicalize_vin_chars s) = true
      · simp only [hrun, if_true]
        constructor
        · intro h; cases h
        · rintro ⟨hv, _, _, hr⟩
          subst hv; rw [hrun] at hr; cases hr
      · have hrun' : hasLongRun (canonicalize_vin_chars s) = false := by
          revert hrun; cases hasLongRun (canonicalize_vin_chars s) <;> simp
        simp only [hrun', if_false]
        constructor
        · intro h
          injection h with h
          subst h
          have h1 := (Bool.and_eq_true _ _).mp hval
          refine ⟨rfl, ?_, h1.2, hrun'⟩
          exact beq_iff_eq.mp h1.1
        · rintro ⟨hv, _, _, _⟩
          subst hv; rfl
    · simp only [hval, if_pos, not_false_iff]
      constructor
      · intro h
        exfalso
        revert h
        simp only [Bool.not_eq_true] at hval
        simp [hval]
      · rintro ⟨hv, hlen, hall, _⟩
        exfalso
        apply hval
        subst hv
        simp [hlen, hall]

/-- C6 counterexample: on the input `" 1HGCM82633A123456"` (a valid VIN with a
leading space) the claim's canonical form is 18 characters long, so the claim
predicts `none`; the code strips whitespace first and returns the 17-character
VIN. -/
theorem clean_vin_for_training_claim_counterexample :
    clean_vin_for_training " 1HGCM82633A123456" = some "1HGCM82633A123456" ∧
      (claimCanonicalVin " 1HGCM82633A123456").data.length = 18 ∧
      claimCanonicalVin " 1HGCM82633A123456" ≠ "1HGCM82633A123456" := by
  refine ⟨?_, ?_, ?_⟩ <;> decide

/- ===== VIN year-code decoding =====
Source: utils/vin_inference.py, _DEF_YEAR_MAP and decode_year_with_context. -/

def defYearMap : List (String × Int × Int) := [
  ("A", 1980, 2010), ("B", 1981, 2011), ("C", 1982, 2012), ("D", 1983, 2013),
  ("E", 1984, 2014), ("F", 1985, 2015), ("G", 1986, 2016), ("H", 1987, 2017),
  ("J", 1988, 2018), ("K", 1989, 2019), ("L", 1990, 2020), ("M", 1991, 2021),
  ("N", 1992, 2022), ("P", 1993, 2023), ("R", 1994, 2024), ("S", 1995, 2025),
  ("T", 1996, 2026), ("V", 1997, 2027), ("W", 1998, 2028), ("X", 1999, 2029),
  ("Y", 2000, 2030), ("1", 2001, 2031), ("2", 2002, 2032), ("3", 2003, 2033),
  ("4", 2004, 2034), ("5", 2005, 2035), ("6", 2006, 2036), ("7", 2007, 2037),
  ("8", 2008, 2038), ("9", 2009, 2039)]

/-- The literal membership string `'ABCDEFGHJKLMNPRSTVWX'` from
`decode_year_with_context` (note: it does not include `Y`). -/
def letterBiasStr : String := "ABCDEFGHJKLMNPRSTVWX"

/-- Embeds `str(year_code).upper().strip()`. -/
def normalizeYearCode (s : String) : String :=
  String.mk (pyStripChars isPySpace (s.data.map toUpperChar))

def decode_year_with_context (s : String) : Option Int :=
  if s = "" then none
  else
    match lookupAssoc defYearMap (normalizeYearCode s) with
    | none => none
    | some (early, late) =>
      if containsStrB letterBiasStr (normalizeYearCode s) then some late else some early

/-- C7 (amended): for every code in the table, decoding returns the later
candidate exactly when the code occurs in the literal preference string
`'ABCDEFGHJKLMNPRSTVWX'` (the letters A–X, whose later candidates lie in
2010–2029) and the earlier candidate otherwise — so the letter `Y` and all
digit codes return the earlier candidate; codes whose normalized form is not
in the table decode to `none`. -/
theorem decode_year_with_context_table (p : String × Int × Int)
    (hp : p ∈ defYearMap) :
    decode_year_with_context p.1 =
      some (if containsStrB letterBiasStr p.1 then p.2.2 else p.2.1) ∧
    (containsStrB letterBiasStr p.1 = true → 2010 ≤ p.2.2 ∧ p.2.2 ≤ 2029) ∧
    (∀ s : String, lookupAssoc defYearMap (normalizeYearCode s) = none →
      decode_year_with_context s = none) := by
  refine ⟨?_, ?_, ?_⟩
  · fin_cases hp <;> decide
  · fin_cases hp <;> decide
  · intro s h
    unfold decode_year_with_context
    by_cases hs : s = ""
    · simp [hs]
    · simp [hs, h]

/-- Witness for C7's amended theorem at the concrete table entry for code
`"A"`. -/
theorem decode_year_with_context_table_witness :
    decode_year_with_context "A" =
      some (if containsStrB letterBiasStr "A" then (2010 : Int) else 1980) :=
  (decode_year_with_context_table ("A", 1980, 2010) (by decide)).1

/-- C7 counterexample: `Y` is a letter code of the table with candidates
2000/2030, yet decoding returns the earlier candidate 2000, outside the
claimed 2010–2030 window. -/
theorem decode_year_with_context_Y_counterexample :
    decode_year_with_context "Y" = some 2000 ∧
      ("Y", (2000 : Int), (2030 : Int)) ∈ defYearMap ∧
      ¬ ((2010 : Int) ≤ 2000) := by
  refine ⟨by decide, by decide, by decide⟩

/- ===== Token-level abbreviation expansion =====
Source: unified_consolidado_processor.py apply_abbreviations (context-aware,
legacy) and utils/unified_text.py _expand_abbreviations (pipeline). -/

/-- Split on one-or-more whitespace/`.` characters (Python
`re.split(r'[\s.]+', text)` plus the drop of empty strings). -/
def splitAux (p : Char → Bool) : List Char → List Char → List (List Char)
  | [], acc => [acc.reverse]
  | c :: cs, acc =>
    if p c then acc.reverse :: splitAux p cs [] else splitAux p cs (c :: acc)

def splitWordsPy (text : String) : List String :=
  ((splitAux (fun c => isPySpace c || c == '.') text.data []).filter
    (fun w => ¬ w.isEmpty)).map String.mk

/-- Embeds `word.lower().strip('.,;:!?')`. -/
def cleanWordPy (w : String) : String :=
  String.mk (pyStripChars
    (fun c => c == '.' || c == ',' || c == ';' || c == ':' || c == '!' || c == '?')
    ((lowerStr w).data))

/-- The fixed `preposition_contexts` list from `apply_abbreviations`. -/
def prepositionContexts : List String := [
  "absorbedor", "amortiguador", "soporte", "base", "tapa", "cubierta",
  "protector", "guardapolvo", "sello", "junta", "empaque", "filtro",
  "bomba", "motor", "sensor", "valvula", "tubo", "manguera",
  "impactos", "choque", "golpe", "suspension", "direccion"]

def prevTokenLower (ws : List String) (i : Nat) : String :=
  if 0 < i then lowerStr (ws.getD (i - 1) "") else ""

def nextTokenLower (ws : List String) (i : Nat) : String :=
  if i + 1 < ws.length then lowerStr (ws.getD (i + 1) "") else ""

/-- The "DE is likely a preposition here" context test of
`apply_abbreviations`. -/
def dePrepositionContext (ws : List String) (i : Nat) : Bool :=
  prepositionContexts.contains (prevTokenLower ws i) ||
  prepositionContexts.contains (nextTokenLower ws i) ||
  startsWithB (nextTokenLower ws i) "impact"

/-- Body of the `apply_abbreviations` loop for the word at index `i`. -/
def expandWordAt (m : List (String × String)) (ws : List String) (i : Nat) :
    String :=
  let word := ws.getD i ""
  let clean := cleanWordPy word
  let shouldExpand := !((clean == "de" || clean == "d") && dePrepositionContext ws i)
  if shouldExpand then
    match lookupAssoc m clean with
    | some expd => expd
    | none => word
  else word

def applyAbbrevWords (m : List (String × String)) (ws : List String) :
    List String :=
  (List.range ws.length).map (expandWordAt m ws)

/-- Embeds `apply_abbreviations` (unified_consolidado_processor.py): context-aware
token expansion; not invoked by the unified pipeline. -/
def apply_abbreviations (m : List (String × String)) (text : String) : String :=
  if text = "" ∨ m = [] then text
  else String.intercalate " " (applyAbbrevWords m (splitWordsPy text))

def isTokenChar (c : Char) : Bool := ('a' ≤ c && c ≤ 'z') || ('0' ≤ c && c ≤ '9')

def tokenizeAux : List Char → List Char → List (List Char)
  | [], acc => if acc.isEmpty then [] else [acc.reverse]
  | c :: cs, acc =>
    if isTokenChar c then tokenizeAux cs (c :: acc)
    else if acc.isEmpty then tokenizeAux cs [] else acc.reverse :: tokenizeAux cs []

/-- Embeds `_basic_tokenize`: `re.findall(r"[a-z0-9]+", s.lower())`. -/
def basicTokenize (s : String) : List String :=
  (tokenizeAux (s.data.map toLowerChar) []).map String.mk

/-- Embeds `_expand_abbreviations` (utils/unified_text.py): the pipeline's
token-level expansion — every token is looked up unconditionally. -/
def expand_abbreviations (m : List (String × String)) (text : String) : String :=
  if m = [] then text
  else
    let t := text.data.map (fun c => if c == '.' || c == '/' then ' ' else c)
    String.intercalate " "
      ((basicTokenize (String.mk t)).map (fun tok => (lookupAssoc m tok).getD tok))

lemma getD_map_range {α : Type} (f : Nat → α) (n i : Nat) (h : i < n) (d : α) :
    ((List.range n).map f).getD i d = f i := by
  rw [List.getD_eq_getElem?_getD, List.getElem?_map, List.getElem?_range h]
  rfl

/-- C1 (amended): in the context-aware expander `apply_abbreviations` of the
consolidado processor, a token whose cleaned form is `"de"` or `"d"` is left
verbatim whenever the immediately preceding or following token (lowercased)
belongs to the fixed part-noun list or the following token starts with
`"impact"`; every token in any other situation is looked up by its cleaned
form and replaced by its expansion when the table has one. The unified
pipeline's own token expander `_expand_abbreviations` has no such exception
(see the counterexample theorem). -/
theorem apply_abbreviations_de_exception (m : List (String × String))
    (ws : List String) (i : Nat) (h : i < ws.length) :
    ((cleanWordPy (ws.getD i "") = "de" ∨ cleanWordPy (ws.getD i "") = "d") →
      dePrepositionContext ws i = true →
      (applyAbbrevWords m ws).getD i "" = ws.getD i "") ∧
    (¬ ((cleanWordPy (ws.getD i "") = "de" ∨ cleanWordPy (ws.getD i "") = "d") ∧
        dePrepositionContext ws i = true) →
      (applyAbbrevWords m ws).getD i "" =
        (lookupAssoc m (cleanWordPy (ws.getD i ""))).getD (ws.getD i "")) := by
  have hspec : expandWordAt m ws i =
      if ((cleanWordPy (ws.getD i "") == "de" || cleanWordPy (ws.getD i "") == "d") &&
          dePrepositionContext ws i) then ws.getD i ""
      else (lookupAssoc m (cleanWordPy (ws.getD i ""))).getD (ws.getD i "") := by
    simp only [expandWordAt]
    cases hcond : ((cleanWordPy (ws.getD i "") == "de" ||
        cleanWordPy (ws.getD i "") == "d") && dePrepositionContext ws i)
    · simp only [hcond, Bool.not_false, if_true, Bool.false_eq_true, if_false]
      cases hl : lookupAssoc m (cleanWordPy (ws.getD i "")) <;>
        simp only [hl, Option.getD_none, Option.getD_some]
    · simp [hcond]
  have hmain : (applyAbbrevWords m ws).getD i "" = expandWordAt m ws i := by
    unfold applyAbbrevWords
    exact getD_map_range (expandWordAt m ws) ws.length i h ""
  constructor
  · intro hde hctx
    rw [hmain, hspec]
    have hb : (cleanWordPy (ws.getD i "") == "de" ||
        cleanWordPy (ws.getD i "") == "d") = true := by
      rcases hde with h' | h' <;> rw [h'] <;> decide
    rw [hb, hctx]
    simp
  · intro hnot
    rw [hmain, hspec]
    have hb : ((cleanWordPy (ws.getD i "") == "de" ||
        cleanWordPy (ws.getD i "") == "d") && dePrepositionContext ws i) = false := by
      cases hc : dePrepositionContext ws i
      · rw [Bool.and_false]
      · have hd : ¬ (cleanWordPy (ws.getD i "") = "de" ∨
            cleanWordPy (ws.getD i "") = "d") := fun hd' => hnot ⟨hd', hc⟩
        have h1 : (cleanWordPy (ws.getD i "") == "de") = false := by
          cases h' : (cleanWordPy (ws.getD i "") == "de")
          · rfl
          · exact absurd (Or.inl (beq_iff_eq.mp h')) hd
        have h2 : (cleanWordPy (ws.getD i "") == "d") = false := by
          cases h' : (cleanWordPy (ws.getD i "") == "d")
          · rfl
          · exact absurd (Or.inr (beq_iff_eq.mp h')) hd
        rw [h1, h2]
        rfl
    rw [hb]
    simp

/-- Witness for C1's amended theorem: in `["absorbedor", "de", "impactos"]`
the middle token cleans to `"de"`, its neighbour `"absorbedor"` is in the
part-noun list, and `apply_abbreviations`' word loop keeps it verbatim. -/
theorem apply_abbreviations_de_exception_witness :
    (applyAbbrevWords [("de", "delantero")] ["absorbedor", "de", "impactos"]).getD 1 "" =
      (["absorbedor", "de", "impactos"] : List String).getD 1 "" :=
  (apply_abbreviations_de_exception [("de", "delantero")]
    ["absorbedor", "de", "impactos"] 1 (by decide)).1 (Or.inl (by decide)) (by decide)

/-- C1 counterexample: the claim asserts the exception for "the text
normalization pipeline's token-level abbreviation expansion", but the
pipeline's expander `_expand_abbreviations` replaces `"de"` even between
`"absorbedor"` and `"impactos"`, both of which trigger the exception in
`apply_abbreviations`. -/
theorem expand_abbreviations_no_de_exception_counterexample :
    prepositionContexts.contains "absorbedor" = true ∧
      expand_abbreviations [("de", "delantero")] "absorbedor de impactos" =
        "absorbedor delantero impactos" ∧
      apply_abbreviations [("de", "delantero")] "absorbedor de impactos" =
        "absorbedor de impactos" := by
  refine ⟨by decide, by decide, by decide⟩

/- ===== Series normalization (preprocessing) =====
Source: unified_consolidado_processor.py, normalize_series_preprocessing. -/

def upperStr (s : String) : String := String.mk (s.data.map toUpperChar)

/-- Embeds `maker.upper().strip() if maker else "*"`. -/
def seriesMakerClean (maker : String) : String :=
  if maker = "" then "*" else stripStr (upperStr maker)

/-- Embeds `series.upper().strip()`. -/
def seriesSeriesClean (series : String) : String := stripStr (upperStr series)

def lookupPair (m : List ((String × String) × String)) (k : String × String) :
    Option String :=
  (m.find? (fun p => p.1 == k)).map (·.2)

/-- Embeds `normalize_series_preprocessing`: maker-specific key first, then the
wildcard `"*"` key, else the original series. -/
def normalize_series_preprocessing (maker series : String)
    (series_map : List ((String × String) × String)) : String :=
  if series = "" ∨ series_map = [] then series
  else
    match lookupPair series_map (seriesMakerClean maker, seriesSeriesClean series) with
    | some v => v
    | none =>
      match lookupPair series_map ("*", seriesSeriesClean series) with
      | some v => v
      | none => series

/-- C8: whenever the maker-specific entry exists for the cleaned series, its
canonical form is returned — even if a wildcard entry also matches; the
wildcard entry is used exactly when no maker-specific entry matches; with
neither, the series is returned unmodified. -/
theorem normalize_series_preprocessing_maker_precedence
    (sm : List ((String × String) × String)) (maker series : String)
    (hs : series ≠ "") :
    (∀ v, lookupPair sm (seriesMakerClean maker, seriesSeriesClean series) = some v →
      normalize_series_preprocessing maker series sm = v) ∧
    (∀ v, lookupPair sm (seriesMakerClean maker, seriesSeriesClean series) = none →
      lookupPair sm ("*", seriesSeriesClean series) = some v →
      normalize_series_preprocessing maker series sm = v) ∧
    (lookupPair sm (seriesMakerClean maker, seriesSeriesClean series) = none →
      lookupPair sm ("*", seriesSeriesClean series) = none →
      normalize_series_preprocessing maker series sm = series) := by
  refine ⟨?_, ?_, ?_⟩
  · intro v hv
    have hsm : sm ≠ [] := by
      intro he; subst he; simp [lookupPair] at hv
    unfold normalize_series_preprocessing
    rw [if_neg (by simp [hs, hsm])]
    rw [hv]
  · intro v h1 h2
    have hsm : sm ≠ [] := by
      intro he; subst he; simp [lookupPair] at h2
    unfold normalize_series_preprocessing
    rw [if_neg (by simp [hs, hsm])]
    rw [h1, h2]
  · intro h1 h2
    unfold normalize_series_preprocessing
    by_cases hsm : sm = []
    · rw [if_pos (Or.inr hsm)]
    · rw [if_neg (by simp [hs, hsm])]
      rw [h1, h2]

/-- Witness for C8 at a concrete table with both a maker-specific and a
wildcard entry for the same cleaned series: the maker-specific canonical wins. -/
theorem normalize_series_preprocessing_maker_precedence_witness :
    normalize_series_preprocessing "Toyota" "Hilux SW4"
      [(("TOYOTA", "HILUX SW4"), "FORTUNER"), (("*", "HILUX SW4"), "SW4")] =
      "FORTUNER" :=
  (normalize_series_preprocessing_maker_precedence
    [(("TOYOTA", "HILUX SW4"), "FORTUNER"), (("*", "HILUX SW4"), "SW4")]
    "Toyota" "Hilux SW4" (by decide)).1 "FORTUNER" (by decide)

/- ===== Confidence scoring =====
Source: utils/year_range_database.py, _calculate_year_range_confidence.
Python float arithmetic over decimal literals is embedded as exact rational
arithmetic. -/

/-- Base confidence from frequency thresholds. -/
def base_confidence (f : Int) : ℚ :=
  if 20 ≤ f then 9/10
  else if 10 ≤ f then 4/5
  else if 5 ≤ f then 7/10
  else if 3 ≤ f then 3/5
  else 1/2

/-- Embeds `match_multipliers.get(match_type, 0.8)`. -/
def match_multiplier (mt : String) : ℚ :=
  if mt = "exact" then 1
  else if mt = "fuzzy" then 17/20
  else if mt = "vin" then 9/10
  else 4/5

/-- Embeds `_calculate_year_range_confidence`; the three optional year arguments
model Python `None`. -/
def calculate_year_range_confidence (frequency : Int)
    (start_year end_year target_year : Option Int) (match_type : String) : ℚ :=
  let c := base_confidence frequency * match_multiplier match_type
  let c' :=
    match target_year, start_year, end_year with
    | some t, some s, some e =>
      if 1 < e - s + 1 then
        if 1/5 ≤ ((t : ℚ) - s) / ((e : ℚ) - s) ∧ ((t : ℚ) - s) / ((e : ℚ) - s) ≤ 4/5
        then c * (21/20) else c
      else c
    | _, _, _ => c
  min c' 1

lemma base_confidence_bounds (f : Int) :
    (1/2 : ℚ) ≤ base_confidence f ∧ base_confidence f ≤ 9/10 := by
  unfold base_confidence
  split_ifs <;> norm_num

lemma match_multiplier_bounds (mt : String) :
    (4/5 : ℚ) ≤ match_multiplier mt ∧ match_multiplier mt ≤ 1 := by
  unfold match_multiplier
  split_ifs <;> norm_num

/-- C10: for every integer frequency, every combination of present/absent
start, end and target years, and every match-type string (unrecognized ones
taking the default 0.8 multiplier), the confidence lies in `[0.4, 1.0]`; the
function is total, the embedding of "never raises". -/
theorem calculate_year_range_confidence_bounds (frequency : Int)
    (start_year end_year target_year : Option Int) (match_type : String) :
    (2/5 : ℚ) ≤ calculate_year_range_confidence frequency start_year end_year
        target_year match_type ∧
      calculate_year_range_confidence frequency start_year end_year
        target_year match_type ≤ 1 := by
  obtain ⟨hb1, hb2⟩ := base_confidence_bounds frequency
  obtain ⟨hm1, hm2⟩ := match_multiplier_bounds match_type
  have hc : (2/5 : ℚ) ≤ base_confidence frequency * match_multiplier match_type := by
    nlinarith
  unfold calculate_year_range_confidence
  refine ⟨le_min ?_ (by norm_num), min_le_right _ _⟩
  rcases target_year with _ | t
  · exact hc
  rcases start_year with _ | s
  · exact hc
  rcases end_year with _ | e
  · exact hc
  simp only
  split_ifs with h1 h2
  · nlinarith
  · exact hc
  · exact hc

/-- C3: for every candidate row (whose `start_year ≤ end_year`, as the
aggregator guarantees), the confidence equals the frequency-threshold base
times the match-type multiplier, times 1.05 exactly when the position
`(year - start)/(end - start)` lies in `[0.2, 0.8]`, capped at 1.0; in
particular frequency 25, an exact match and the target at the midpoint of
2000–2010 yield exactly 0.945. -/
theorem calculate_year_range_confidence_formula :
    (∀ (f s e t : Int) (mt : String), s ≤ e →
      calculate_year_range_confidence f (some s) (some e) (some t) mt =
        min (base_confidence f * match_multiplier mt *
          (if 1/5 ≤ ((t : ℚ) - s) / ((e : ℚ) - s) ∧
              ((t : ℚ) - s) / ((e : ℚ) - s) ≤ 4/5
           then 21/20 else 1)) 1) ∧
    calculate_year_range_confidence 25 (some 2000) (some 2010) (some 2005)
      "exact" = 189/200 := by
  constructor
  · intro f s e t mt hse
    unfold calculate_year_range_confidence
    simp only
    by_cases hspan : 1 < e - s + 1
    · rw [if_pos hspan]
      split_ifs with hpos
      · ring
      · ring
    · rw [if_neg hspan]
      have he : e = s := le_antisymm (by omega) hse
      subst he
      have hz : ((e : ℚ) - e) = 0 := by ring
      rw [hz]
      simp only [div_zero]
      rw [if_neg (by norm_num)]
      ring_nf
  · norm_num [calculate_year_range_confidence, base_confidence, match_multiplier]

/-- Witness for C3 at frequency 25, range 2000–2010, target 2005, exact
match. -/
theorem calculate_year_range_confidence_formula_witness :
    calculate_year_range_confidence 25 (some 2000) (some 2010) (some 2005)
        "exact" =
      min (base_confidence 25 * match_multiplier "exact" *
        (if 1/5 ≤ ((2005 : ℚ) - 2000) / ((2010 : ℚ) - 2000) ∧
            ((2005 : ℚ) - 2000) / ((2010 : ℚ) - 2000) ≤ 4/5
         then 21/20 else 1)) 1 :=
  calculate_year_range_confidence_formula.1 25 2000 2010 2005 "exact" (by norm_num)

/- ===== Prediction cascade =====
Source: utils/year_range_database.py, get_sku_predictions_year_range, with
the `sku_year_ranges` table modelled as a list of rows and the three SQL
queries as filter/sort/limit over it. -/

structure YearRangeRow where
  maker : String
  series : String
  descripcion : String
  normalized_descripcion : String
  referencia : Option String
  start_year : Int
  end_year : Int
  frequency : Int
  global_sku_frequency : Int
deriving DecidableEq

structure Prediction where
  sku : Option String
  frequency : Int
  global_frequency : Int
  confidence : ℚ
  source : String
  year_range : String
deriving DecidableEq

/-- SQL `referencia IS NOT NULL AND LENGTH(TRIM(referencia)) > 0` (SQLite
`TRIM` removes spaces). -/
def refNonBlank : Option String → Bool
  | none => false
  | some r => decide (0 < (pyStripChars (fun c => c == ' ') r.data).length)

/-- SQL `x BETWEEN lo AND hi`. -/
def betweenB (lo x hi : Int) : Bool := decide (lo ≤ x) && decide (x ≤ hi)

/-- SQL `(descripcion = d OR normalized_descripcion = d)`. -/
def descMatch (d : String) (r : YearRangeRow) : Bool :=
  (r.descripcion == d) || (r.normalized_descripcion == d)

/-- SQL `col LIKE '%pat%'` (ASCII case-insensitive substring; the empty
pattern produced the match-all `'%'`). -/
def likeContains (pat sval : String) : Bool :=
  if pat = "" then true else infixB (lowerStr pat).data (lowerStr sval).data

/-- Embeds `series.split('/')[-1]`. -/
def lastSlashSegment (s : String) : String :=
  let parts := splitAux (fun c => c == '/') s.data []
  String.mk (parts.getD (parts.length - 1) [])

/-- Embeds `.split('(')[0]`. -/
def beforeParen (s : String) : String :=
  String.mk (s.data.takeWhile (fun c => !(c == '(')))

/-- Embeds `series.split('/')[-1].split('(')[0].strip() if series else ''`. -/
def shortSeries (series : String) : String :=
  if series = "" then "" else stripStr (beforeParen (lastSlashSegment series))

/-- WHERE clause of the first (exact) query; all three text parameters are
passed lowercased there. -/
def stage1Filter (maker series desc : String) (model : Int)
    (r : YearRangeRow) : Bool :=
  (r.maker == lowerStr maker) && (r.series == lowerStr series) &&
  descMatch (lowerStr desc) r && betweenB r.start_year model r.end_year &&
  refNonBlank r.referencia

/-- WHERE clause of the series-LIKE fallback query (raw parameters). -/
def stage2Filter (maker series desc : String) (model : Int)
    (r : YearRangeRow) : Bool :=
  (r.maker == maker) &&
  (likeContains series r.series || likeContains (shortSeries series) r.series) &&
  descMatch desc r && betweenB r.start_year model r.end_year &&
  refNonBlank r.referencia

/-- WHERE clause of the maker+description fallback query. -/
def stage3Filter (maker desc : String) (model : Int) (r : YearRangeRow) : Bool :=
  (r.maker == maker) && descMatch desc r &&
  betweenB r.start_year model r.end_year && refNonBlank r.referencia

/-- Embeds `ORDER BY frequency DESC` (stable insertion sort). -/
def insertRowDesc (r : YearRangeRow) : List YearRangeRow → List YearRangeRow
  | [] => [r]
  | x :: xs => if x.frequency < r.frequency then r :: x :: xs
               else x :: insertRowDesc r xs

def sortRowsDesc : List YearRangeRow → List YearRangeRow
  | [] => []
  | r :: rs => insertRowDesc r (sortRowsDesc rs)

/-- Embeds `target_year = int(model) if model and str(model).isdigit() else None`
for an integer-valued `model`. -/
def targetYearOf (model : Int) : Option Int :=
  if 0 < model then some model else none

def mkPrediction (matchType : String) (model : Int) (r : YearRangeRow) :
    Prediction :=
  { sku := r.referencia
    frequency := r.frequency
    global_frequency := r.global_sku_frequency
    confidence := calculate_year_range_confidence r.frequency (some r.start_year)
      (some r.end_year) (targetYearOf model) matchType
    source := "DB(" ++ toString r.frequency ++ "/" ++
      toString r.global_sku_frequency ++ ")"
    year_range := toString r.start_year ++ "-" ++ toString r.end_year }

/-- One SQL query: filter, order by frequency descending, apply LIMIT. -/
def stageQuery (f : YearRangeRow → Bool) (tbl : List YearRangeRow)
    (limit : Nat) : List YearRangeRow :=
  (sortRowsDesc (tbl.filter f)).take limit

def stage1Results (tbl : List YearRangeRow) (maker : String) (model : Int)
    (series desc : String) (limit : Nat) : List Prediction :=
  (stageQuery (stage1Filter maker series desc model) tbl limit).map
    (mkPrediction "exact" model)

def stage2Results (tbl : List YearRangeRow) (maker : String) (model : Int)
    (series desc : String) (limit : Nat) : List Prediction :=
  (stageQuery (stage2Filter maker series desc model) tbl limit).map
    (mkPrediction "exact" model)

def stage3Results (tbl : List YearRangeRow) (maker : String) (model : Int)
    (desc : String) (limit : Nat) : List Prediction :=
  (stageQuery (stage3Filter maker desc model) tbl limit).map
    (mkPrediction "fuzzy" model)

/-- Embeds `get_sku_predictions_year_range` on a live store with all queries
succeeding. -/
def get_sku_predictions_year_range (tbl : List YearRangeRow) (maker : String)
    (model : Int) (series desc : String) (limit : Nat) : List Prediction :=
  let predictions := stage1Results tbl maker model series desc limit
  let predictions := if predictions.isEmpty
    then stage2Results tbl maker model series desc limit else predictions
  let predictions := if predictions.isEmpty
    then stage3Results tbl maker model desc limit else predictions
  predictions

/-- Embeds `get_sku_predictions_year_range` with the failure behaviour made
explicit: `dbExists = false` models a missing database file
(`get_connection` raising `FileNotFoundError` outside any try amount to an
escaping exception), and each `qNfail` flag models the corresponding
`cursor.execute` raising inside its stage's `try`, which the code catches
and logs, leaving `predictions` untouched. -/
def get_sku_predictions_checked (dbExists q1fail q2fail q3fail : Bool)
    (tbl : List YearRangeRow) (maker : String) (model : Int)
    (series desc : String) (limit : Nat) : Except String (List Prediction) :=
  if ¬ dbExists then Except.error "FileNotFoundError"
  else
    let p1 := if q1fail then [] else stage1Results tbl maker model series desc limit
    let p2 := if p1.isEmpty
      then (if q2fail then [] else stage2Results tbl maker model series desc limit)
      else p1
    let p3 := if p2.isEmpty
      then (if q3fail then [] else stage3Results tbl maker model desc limit)
      else p2
    Except.ok p3

lemma mem_insertRowDesc (a r : YearRangeRow) (l : List YearRangeRow) :
    a ∈ insertRowDesc r l ↔ a = r ∨ a ∈ l := by
  induction l with
  | nil => simp [insertRowDesc]
  | cons x xs ih =>
    unfold insertRowDesc
    split_ifs
    · simp
    · simp [ih]
      tauto

lemma mem_sortRowsDesc (a : YearRangeRow) (l : List YearRangeRow) :
    a ∈ sortRowsDesc l ↔ a ∈ l := by
  induction l with
  | nil => simp [sortRowsDesc]
  | cons x xs ih => simp [sortRowsDesc, mem_insertRowDesc, ih]

lemma stage_provenance (f : YearRangeRow → Bool) (mt : String) (model : Int)
    (tbl : List YearRangeRow) (limit : Nat) (p : Prediction)
    (hp : p ∈ (stageQuery f tbl limit).map (mkPrediction mt model)) :
    ∃ r, r ∈ tbl ∧ f r = true ∧ p = mkPrediction mt model r := by
  rcases List.mem_map.mp hp with ⟨r, hr, hpe⟩
  have hr1 : r ∈ sortRowsDesc (tbl.filter f) :=
    List.take_subset _ _ hr
  have hr2 : r ∈ tbl.filter f := (mem_sortRowsDesc r _).mp hr1
  rcases List.mem_filter.mp hr2 with ⟨hrt, hrf⟩
  exact ⟨r, hrt, hrf, hpe.symm⟩

lemma descMatch_eq {d : String} {r : YearRangeRow} (h : descMatch d r = true) :
    r.descripcion = d ∨ r.normalized_descripcion = d := by
  unfold descMatch at h
  rcases Bool.or_eq_true_iff.mp h with h' | h'
  · exact Or.inl (beq_iff_eq.mp h')
  · exact Or.inr (beq_iff_eq.mp h')

/-- C2: the cascade runs exact (lowercased maker/series/description), then
series-LIKE (maker and description exact), then maker+description, each later
stage only when every earlier stage returned zero rows; and every returned
prediction comes from a stored row whose original or normalized description
is exactly equal to the query description (lowercased in stage 1, raw in
stages 2–3) — never a substring or fuzzy description match. -/
theorem get_sku_predictions_year_range_cascade (tbl : List YearRangeRow)
    (maker : String) (model : Int) (series desc : String) (limit : Nat) :
    (stage1Results tbl maker model series desc limit ≠ [] →
      get_sku_predictions_year_range tbl maker model series desc limit =
        stage1Results tbl maker model series desc limit) ∧
    (stage1Results tbl maker model series desc limit = [] →
      stage2Results tbl maker model series desc limit ≠ [] →
      get_sku_predictions_year_range tbl maker model series desc limit =
        stage2Results tbl maker model series desc limit) ∧
    (stage1Results tbl maker model series desc limit = [] →
      stage2Results tbl maker model series desc limit = [] →
      get_sku_predictions_year_range tbl maker model series desc limit =
        stage3Results tbl maker model desc limit) ∧
    (∀ p ∈ get_sku_predictions_year_range tbl maker model series desc limit,
      ∃ r, r ∈ tbl ∧
        (r.descripcion = lowerStr desc ∨ r.normalized_descripcion = lowerStr desc ∨
          r.descripcion = desc ∨ r.normalized_descripcion = desc) ∧
        p.sku = r.referencia) := by
  refine ⟨?_, ?_, ?_, ?_⟩
  · intro h
    have h1 : (stage1Results tbl maker model series desc limit).isEmpty = false := by
      cases hc : stage1Results tbl maker model series desc limit with
      | nil => exact absurd hc h
      | cons a l => rfl
    simp only [get_sku_predictions_year_range, h1, Bool.false_eq_true, if_false]
  · intro h1e h2
    have h2f : (stage2Results tbl maker model series desc limit).isEmpty = false := by
      cases hc : stage2Results tbl maker model series desc limit with
      | nil => exact absurd hc h2
      | cons a l => rfl
    simp only [get_sku_predictions_year_range, h1e, List.isEmpty_nil, if_true,
      h2f, Bool.false_eq_true, if_false]
  · intro h1e h2e
    simp only [get_sku_predictions_year_range, h1e, h2e, List.isEmpty_nil, if_true]
  · intro p hp
    cases h1 : (stage1Results tbl maker model series desc limit).isEmpty
    · have hout : get_sku_predictions_year_range tbl maker model series desc limit =
          stage1Results tbl maker model series desc limit := by
        simp only [get_sku_predictions_year_range, h1, Bool.false_eq_true, if_false]
      rw [hout] at hp
      simp only [stage1Results] at hp
      rcases stage_provenance _ _ _ _ _ _ hp with ⟨r, hrt, hrf, hpe⟩
      simp only [stage1Filter, Bool.and_eq_true] at hrf
      rcases hrf with ⟨⟨⟨⟨_, _⟩, hdm⟩, _⟩, _⟩
      rcases descMatch_eq hdm with hd | hd
      · exact ⟨r, hrt, Or.inl hd, by rw [hpe]; rfl⟩
      · exact ⟨r, hrt, Or.inr (Or.inl hd), by rw [hpe]; rfl⟩
    · cases h2 : (stage2Results tbl maker model series desc limit).isEmpty
      · have hout : get_sku_predictions_year_range tbl maker model series desc limit =
            stage2Results tbl maker model series desc limit := by
          simp only [get_sku_predictions_year_range, h1, if_true, h2,
            Bool.false_eq_true, if_false]
        rw [hout] at hp
        simp only [stage2Results] at hp
        rcases stage_provenance _ _ _ _ _ _ hp with ⟨r, hrt, hrf, hpe⟩
        simp only [stage2Filter, Bool.and_eq_true] at hrf
        rcases hrf with ⟨⟨⟨⟨_, _⟩, hdm⟩, _⟩, _⟩
        rcases descMatch_eq hdm with hd | hd
        · exact ⟨r, hrt, Or.inr (Or.inr (Or.inl hd)), by rw [hpe]; rfl⟩
        · exact ⟨r, hrt, Or.inr (Or.inr (Or.inr hd)), by rw [hpe]; rfl⟩
      · have hout : get_sku_predictions_year_range tbl maker model series desc limit =
            stage3Results tbl maker model desc limit := by
          simp only [get_sku_predictions_year_range, h1, h2, if_true]
        rw [hout] at hp
        simp only [stage3Results] at hp
        rcases stage_provenance _ _ _ _ _ _ hp with ⟨r, hrt, hrf, hpe⟩
        simp only [stage3Filter, Bool.and_eq_true] at hrf
        rcases hrf with ⟨⟨⟨_, hdm⟩, _⟩, _⟩
        rcases descMatch_eq hdm with hd | hd
        · exact ⟨r, hrt, Or.inr (Or.inr (Or.inl hd)), by rw [hpe]; rfl⟩
        · exact ⟨r, hrt, Or.inr (Or.inr (Or.inr hd)), by rw [hpe]; rfl⟩

def demoRow : YearRangeRow :=
  ⟨"mazda", "cx-30", "tapa", "tapa", some "R1", 2000, 2010, 5, 7⟩

/-- Witness for C2: one matching row, stage 1 non-empty, cascade returns the
stage-1 results. -/
theorem get_sku_predictions_year_range_cascade_witness :
    get_sku_predictions_year_range [demoRow] "Mazda" 2005 "CX-30" "Tapa" 10 =
      stage1Results [demoRow] "Mazda" 2005 "CX-30" "Tapa" 10 :=
  (get_sku_predictions_year_range_cascade [demoRow] "Mazda" 2005 "CX-30"
    "Tapa" 10).1 (by decide)

/-- C9 (amended): when the database file exists, per-stage query failures are
caught inside the cascade (it always returns `ok` of a list, empty when all
three queries fail, with the error only logged — no error signal in the
return value); but when the store is unavailable (missing database file),
`get_connection`'s `FileNotFoundError` propagates out of the cascade. -/
theorem get_sku_predictions_checked_failure_behavior (q1 q2 q3 : Bool)
    (tbl : List YearRangeRow) (maker : String) (model : Int)
    (series desc : String) (limit : Nat) :
    (∃ l, get_sku_predictions_checked true q1 q2 q3 tbl maker model series
        desc limit = Except.ok l) ∧
    (get_sku_predictions_checked false q1 q2 q3 tbl maker model series desc
        limit = Except.error "FileNotFoundError") ∧
    (q1 = true → q2 = true → q3 = true →
      get_sku_predictions_checked true q1 q2 q3 tbl maker model series desc
        limit = Except.ok []) := by
  refine ⟨⟨_, rfl⟩, rfl, ?_⟩
  rintro rfl rfl rfl
  simp [get_sku_predictions_checked]

/-- Witness for C9's amended theorem: all three stage queries fail, the
cascade still returns `ok []` with no error signal. -/
theorem get_sku_predictions_checked_failure_behavior_witness :
    get_sku_predictions_checked true true true true [] "m" 0 "s" "d" 0 =
      Except.ok [] :=
  (get_sku_predictions_checked_failure_behavior true true true [] "m" 0 "s"
    "d" 0).2.2 rfl rfl rfl

/-- C9 counterexample: with the store unavailable the cascade evaluates to an
escaping exception (`error`), not to an empty result list with an error
signal — contradicting "never lets an exception propagate past the cascade
boundary". -/
theorem get_sku_predictions_checked_raises_counterexample :
    get_sku_predictions_checked false false false false [] "m" 0 "s" "d" 0 =
      Except.error "FileNotFoundError" ∧
    (Except.error "FileNotFoundError" ≠
      (Except.ok [] : Except String (List Prediction))) := by
  refine ⟨rfl, ?_⟩
  intro h
  cases h

/- ===== Year-range aggregation =====
Source: unified_consolidado_processor.py, detect_year_ranges and
aggregate_sku_year_ranges, with the `processed_consolidado` table modelled as
a list of records with nullable columns. -/

structure PRecord where
  maker : Option String
  series : Option String
  descripcion : Option String
  normalized_descripcion : Option String
  referencia : Option String
  model : Option Int
deriving DecidableEq

/-- Embeds `referencia IS NOT NULL AND referencia != '' AND referencia != 'None'
AND referencia != 'UNKNOWN'` on the string value. -/
def validRefStr (r : String) : Bool :=
  (r != "") && (r != "None") && (r != "UNKNOWN")

/-- The WHERE clause of the aggregation query: valid referencia, non-null
maker/series/model, and `model BETWEEN minYear AND maxYear`. -/
def qualifies (minYear maxYear : Int) (rec : PRecord) : Bool :=
  (match rec.referencia with
   | some r => validRefStr r
   | none => false) &&
  rec.maker.isSome && rec.series.isSome &&
  (match rec.model with
   | some m => decide (minYear ≤ m) && decide (m ≤ maxYear)
   | none => false)

abbrev GroupKey :=
  Option String × Option String × Option String × Option String × Option String

/-- The Python grouping key
`(maker, series, descripcion, normalized_descripcion, referencia)`. -/
def keyOf (rec : PRecord) : GroupKey :=
  (rec.maker, rec.series, rec.descripcion, rec.normalized_descripcion,
    rec.referencia)

def keyRef (k : GroupKey) : Option String := k.2.2.2.2

def qualRecords (rs : List PRecord) (minYear maxYear : Int) : List PRecord :=
  rs.filter (qualifies minYear maxYear)

/-- The distinct keys of `sku_groups`. -/
def groupKeys (rs : List PRecord) (minYear maxYear : Int) : List GroupKey :=
  ((qualRecords rs minYear maxYear).map keyOf).dedup

def groupRecs (rs : List PRecord) (minYear maxYear : Int) (k : GroupKey) :
    List PRecord :=
  (qualRecords rs minYear maxYear).filter (fun r => decide (keyOf r = k))

/-- Computes `total_frequency` of a group. -/
def groupFrequency (rs : List PRecord) (minYear maxYear : Int) (k : GroupKey) :
    Nat :=
  (groupRecs rs minYear maxYear k).length

/-- The multiset of model years collected for a group (`years`). -/
def groupYears (rs : List PRecord) (minYear maxYear : Int) (k : GroupKey) :
    List Int :=
  (groupRecs rs minYear maxYear k).filterMap (·.model)

/-- Embeds `detect_year_ranges`: `(min(years), max(years))`, `None` on empty input. -/
def detect_year_ranges : List Int → Option (Int × Int)
  | [] => none
  | y :: ys => some (ys.foldl min y, ys.foldl max y)

def sumFrequencies (rs : List PRecord) (minYear maxYear : Int) : Nat :=
  ((groupKeys rs minYear maxYear).map (groupFrequency rs minYear maxYear)).sum

/-- The `global_sku_frequencies` dictionary: per valid referencia, the count
of ALL records carrying it (no maker/series/model constraint); `.get(_, 0)`
for invalid keys. -/
def globalFrequency (rs : List PRecord) (sku : String) : Nat :=
  if validRefStr sku then rs.countP (fun r => decide (r.referencia = some sku))
  else 0

/-- The `global_sku_frequency` value stored on the aggregated row of group
`k`. -/
def storedGlobal (rs : List PRecord) (k : GroupKey) : Nat :=
  match keyRef k with
  | some sku => globalFrequency rs sku
  | none => 0

/-- Total frequency across all aggregated groups whose referencia is `sku`. -/
def sumFreqForSku (rs : List PRecord) (minYear maxYear : Int) (sku : String) :
    Nat :=
  (((groupKeys rs minYear maxYear).filter
      (fun k => decide (keyRef k = some sku))).map
    (groupFrequency rs minYear maxYear)).sum

lemma foldl_min_le_init (ys : List Int) : ∀ y : Int, ys.foldl min y ≤ y := by
  induction ys with
  | nil => intro y; exact le_refl y
  | cons a as ih => intro y; exact le_trans (ih (min y a)) (min_le_left y a)

lemma foldl_max_init_le (ys : List Int) : ∀ y : Int, y ≤ ys.foldl max y := by
  induction ys with
  | nil => intro y; exact le_refl y
  | cons a as ih => intro y; exact le_trans (le_max_left y a) (ih (max y a))

lemma foldl_min_le_mem (ys : List Int) :
    ∀ y z : Int, z ∈ ys → ys.foldl min y ≤ z := by
  induction ys with
  | nil => intro y z h; cases h
  | cons a as ih =>
    intro y z h
    rcases List.mem_cons.mp h with rfl | h'
    · exact le_trans (foldl_min_le_init as (min y z)) (min_le_right y z)
    · exact ih (min y a) z h'

lemma foldl_max_mem_le (ys : List Int) :
    ∀ y z : Int, z ∈ ys → z ≤ ys.foldl max y := by
  induction ys with
  | nil => intro y z h; cases h
  | cons a as ih =>
    intro y z h
    rcases List.mem_cons.mp h with rfl | h'
    · exact le_trans (le_max_right y z) (foldl_max_init_le as (max y z))
    · exact ih (max y a) z h'

lemma foldl_min_mem (ys : List Int) :
    ∀ y : Int, ys.foldl min y = y ∨ ys.foldl min y ∈ ys := by
  induction ys with
  | nil => intro y; exact Or.inl rfl
  | cons a as ih =>
    intro y
    have hfold : (a :: as).foldl min y = as.foldl min (min y a) := rfl
    rcases ih (min y a) with h | h
    · rcases le_total y a with hya | hay
      · left; rw [hfold, h]; exact min_eq_left hya
      · right; rw [hfold, h, min_eq_right hay]; exact List.mem_cons_self a as
    · right; rw [hfold]; exact List.mem_cons_of_mem a h

lemma foldl_max_mem (ys : List Int) :
    ∀ y : Int, ys.foldl max y = y ∨ ys.foldl max y ∈ ys := by
  induction ys with
  | nil => intro y; exact Or.inl rfl
  | cons a as ih =>
    intro y
    have hfold : (a :: as).foldl max y = as.foldl max (max y a) := rfl
    rcases ih (max y a) with h | h
    · rcases le_total a y with hay | hya
      · left; rw [hfold, h]; exact max_eq_left hay
      · right; rw [hfold, h, max_eq_right hya]; exact List.mem_cons_self a as
    · right; rw [hfold]; exact List.mem_cons_of_mem a h

lemma groupFrequency_eq_count (rs : List PRecord) (minYear maxYear : Int)
    (k : GroupKey) :
    groupFrequency rs minYear maxYear k =
      @List.count GroupKey instBEqOfDecidableEq k
        ((qualRecords rs minYear maxYear).map keyOf) := by
  unfold groupFrequency groupRecs
  have hc : @List.count GroupKey instBEqOfDecidableEq k
      ((qualRecords rs minYear maxYear).map keyOf) =
    List.countP (fun x => decide (x = k))
      ((qualRecords rs minYear maxYear).map keyOf) := rfl
  rw [hc, List.countP_map, List.countP_eq_length_filter]
  rfl

lemma countP_bool_split {α : Type} (p q : α → Bool) (l : List α) :
    l.countP p =
      l.countP (fun a => p a && q a) + l.countP (fun a => p a && !q a) := by
  induction l with
  | nil => rfl
  | cons a as ih =>
    simp only [List.countP_cons]
    cases hp : p a <;> cases hq : q a <;> simp [hp, hq, ih] <;> omega

/-- C5 (amended): over any record list, the sum of `frequency` over all
produced groups equals the number of records satisfying the aggregation
query's qualifying predicate — valid non-placeholder SKU (not ''/'None'/
'UNKNOWN'), non-null maker, series and model year, model year within
`[minYear, maxYear]`; a null description does NOT disqualify a record — and
every produced group's year range is `some (s, e)` with `s` the minimum and
`e` the maximum of the group's observed years, so `s ≤ e`. -/
theorem aggregate_sku_year_ranges_invariants (rs : List PRecord)
    (minYear maxYear : Int) :
    sumFrequencies rs minYear maxYear =
      (rs.filter (qualifies minYear maxYear)).length ∧
    ∀ k ∈ groupKeys rs minYear maxYear,
      ∃ s e, detect_year_ranges (groupYears rs minYear maxYear k) = some (s, e) ∧
        s ≤ e ∧ s ∈ groupYears rs minYear maxYear k ∧
        e ∈ groupYears rs minYear maxYear k ∧
        ∀ y ∈ groupYears rs minYear maxYear k, s ≤ y ∧ y ≤ e := by
  constructor
  · unfold sumFrequencies
    rw [show groupFrequency rs minYear maxYear =
        (fun k => @List.count GroupKey instBEqOfDecidableEq k
          ((qualRecords rs minYear maxYear).map keyOf)) from
      funext (groupFrequency_eq_count rs minYear maxYear)]
    have h := List.sum_map_count_dedup_eq_length
      ((qualRecords rs minYear maxYear).map keyOf)
    rw [List.length_map] at h
    exact h
  · intro k hk
    have hk' : k ∈ (qualRecords rs minYear maxYear).map keyOf :=
      List.mem_dedup.mp hk
    rcases List.mem_map.mp hk' with ⟨r, hrq, hkr⟩
    have hrg : r ∈ groupRecs rs minYear maxYear k := by
      unfold groupRecs
      exact List.mem_filter.mpr ⟨hrq, by simp [hkr]⟩
    have hq : qualifies minYear maxYear r = true := (List.mem_filter.mp hrq).2
    simp only [qualifies, Bool.and_eq_true] at hq
    rcases hq with ⟨⟨⟨_, _⟩, _⟩, hmodel⟩
    obtain ⟨m, hm⟩ : ∃ m, r.model = some m := by
      cases hmod : r.model with
      | none => rw [hmod] at hmodel; simp at hmodel
      | some m => exact ⟨m, rfl⟩
    have hmy : m ∈ groupYears rs minYear maxYear k := by
      unfold groupYears
      exact List.mem_filterMap.mpr ⟨r, hrg, by rw [hm]⟩
    cases hys : groupYears rs minYear maxYear k with
    | nil => rw [hys] at hmy; cases hmy
    | cons y ys =>
      refine ⟨ys.foldl min y, ys.foldl max y, rfl,
        le_trans (foldl_min_le_init ys y) (foldl_max_init_le ys y), ?_, ?_, ?_⟩
      · rcases foldl_min_mem ys y with h | h
        · rw [h]; exact List.mem_cons_self y ys
        · exact List.mem_cons_of_mem y h
      · rcases foldl_max_mem ys y with h | h
        · rw [h]; exact List.mem_cons_self y ys
        · exact List.mem_cons_of_mem y h
      · intro z hz
        rcases List.mem_cons.mp hz with rfl | hz'
        · exact ⟨foldl_min_le_init ys z, foldl_max_init_le ys z⟩
        · exact ⟨foldl_min_le_mem ys y z hz', foldl_max_mem_le ys y z hz'⟩

def recFull : PRecord :=
  ⟨some "mazda", some "cx-30", some "tapa", some "tapa", some "R1", some 2000⟩

def recNoMaker : PRecord :=
  ⟨none, some "cx-30", some "tapa", some "tapa", some "R1", some 2000⟩

def recNoDesc : PRecord :=
  ⟨some "mazda", some "cx-30", none, none, some "R1", some 2000⟩

/-- Witness for C5 on a one-record table. -/
theorem aggregate_sku_year_ranges_invariants_witness :
    sumFrequencies [recFull] 1990 2027 =
      ([recFull].filter (qualifies 1990 2027)).length ∧
    (∃ s e, detect_year_ranges (groupYears [recFull] 1990 2027 (keyOf recFull)) =
        some (s, e) ∧
      s ≤ e ∧ s ∈ groupYears [recFull] 1990 2027 (keyOf recFull) ∧
      e ∈ groupYears [recFull] 1990 2027 (keyOf recFull) ∧
      ∀ y ∈ groupYears [recFull] 1990 2027 (keyOf recFull), s ≤ y ∧ y ≤ e) :=
  ⟨(aggregate_sku_year_ranges_invariants [recFull] 1990 2027).1,
   (aggregate_sku_year_ranges_invariants [recFull] 1990 2027).2
     (keyOf recFull) (by decide)⟩

/-- Modelled from the claim's words, for refinement comparison only: the
claim's qualifying records are those with "non-null maker, series, model
year, description, and SKU, with model year in [1990, currentYear+2]". -/
def claimQualifies (minYear maxYear : Int) (rec : PRecord) : Bool :=
  rec.maker.isSome && rec.series.isSome && rec.descripcion.isSome &&
  rec.referencia.isSome &&
  (match rec.model with
   | some m => decide (minYear ≤ m) && decide (m ≤ maxYear)
   | none => false)

/-- C5 counterexample: a record with a null description (all other fields
valid) is aggregated by the code — its group contributes frequency 1 — yet
the claim's qualifying predicate (which requires non-null description)
counts zero qualifying records, so the claimed equality fails. -/
theorem aggregate_claim_qualifying_counterexample :
    sumFrequencies [recNoDesc] 1990 2027 = 1 ∧
      ([recNoDesc].filter (claimQualifies 1990 2027)).length = 0 ∧
      sumFrequencies [recNoDesc] 1990 2027 ≠
        ([recNoDesc].filter (claimQualifies 1990 2027)).length := by
  refine ⟨by decide, by decide, by decide⟩

/-- C4 (amended): for every produced group, the stored
`global_sku_frequency` is the SKU's total occurrence count over the whole
record list (all records whose referencia equals it, with no maker, series,
model or description constraint); it decomposes as the total frequency
across all aggregated groups with that SKU plus the count of that SKU's
records that qualify for no group (null maker/series/model or out-of-range
year). -/
theorem global_sku_frequency_decomposition (rs : List PRecord)
    (minYear maxYear : Int) (k : GroupKey) (sku : String)
    (hk : k ∈ groupKeys rs minYear maxYear) (href : keyRef k = some sku) :
    storedGlobal rs k =
      sumFreqForSku rs minYear maxYear sku +
        rs.countP (fun r => decide (r.referencia = some sku) &&
          ! qualifies minYear maxYear r) := by
  have hk' : k ∈ (qualRecords rs minYear maxYear).map keyOf :=
    List.mem_dedup.mp hk
  rcases List.mem_map.mp hk' with ⟨r0, hr0q, hk0⟩
  have hq0 : qualifies minYear maxYear r0 = true := (List.mem_filter.mp hr0q).2
  have href0 : r0.referencia = some sku := by
    rw [show r0.referencia = keyRef (keyOf r0) from rfl, hk0, href]
  have hvalid : validRefStr sku = true := by
    simp only [qualifies, Bool.and_eq_true] at hq0
    rcases hq0 with ⟨⟨⟨hrefm, _⟩, _⟩, _⟩
    rw [href0] at hrefm
    exact hrefm
  have hL : storedGlobal rs k =
      rs.countP (fun r => decide (r.referencia = some sku)) := by
    unfold storedGlobal
    rw [href]
    show globalFrequency rs sku = _
    unfold globalFrequency
    rw [if_pos hvalid]
  have hM : sumFreqForSku rs minYear maxYear sku =
      rs.countP (fun r => decide (r.referencia = some sku) &&
        qualifies minYear maxYear r) := by
    unfold sumFreqForSku
    rw [show groupFrequency rs minYear maxYear =
        (fun k => @List.count GroupKey instBEqOfDecidableEq k
          ((qualRecords rs minYear maxYear).map keyOf)) from
      funext (groupFrequency_eq_count rs minYear maxYear)]
    have h := List.sum_map_count_dedup_filter_eq_countP
      (fun k : GroupKey => decide (keyRef k = some sku))
      ((qualRecords rs minYear maxYear).map keyOf)
    rw [List.countP_map] at h
    unfold groupKeys
    rw [h]
    unfold qualRecords
    rw [List.countP_filter]
    rfl
  rw [hL, hM]
  exact countP_bool_split (fun r => decide (r.referencia = some sku))
    (qualifies minYear maxYear) rs

/-- Witness for C4's amended theorem on a two-record table. -/
theorem global_sku_frequency_decomposition_witness :
    storedGlobal [recFull, recNoMaker] (keyOf recFull) =
      sumFreqForSku [recFull, recNoMaker] 1990 2027 "R1" +
        ([recFull, recNoMaker] : List PRecord).countP
          (fun r => decide (r.referencia = some "R1") &&
            ! qualifies 1990 2027 r) :=
  global_sku_frequency_decomposition [recFull, recNoMaker] 1990 2027
    (keyOf recFull) "R1" (by decide) (by decide)

/-- C4 counterexample: with one fully-qualifying record and one record with
null maker (both SKU "R1"), the stored global frequency is 2 while the total
record count across all aggregated groups for "R1" is 1 — refuting the claim
that the two are equal. -/
theorem global_sku_frequency_counterexample :
    keyOf recFull ∈ groupKeys [recFull, recNoMaker] 1990 2027 ∧
      keyRef (keyOf recFull) = some "R1" ∧
      storedGlobal [recFull, recNoMaker] (keyOf recFull) = 2 ∧
      sumFreqForSku [recFull, recNoMaker] 1990 2027 "R1" = 1 := by
  refine ⟨by decide, by decide, by decide, by decide⟩
